import Mathlib

/-!
Verification of the client-side session/authentication lifecycle of the
medical-system frontend: the Session Store (`src/context/AuthContext.tsx`),
the Route Guard (`PrivateRoute`), the HTTP client wrapper
(`src/api/axios.ts`), and the login page's universal-admin bypass
(`src/pages/Login/Login.tsx`).

Times are carried in integer milliseconds (`Date.now()` yields an integer
millisecond count).  The source compares `decoded.exp > Date.now() / 1000`
over exact rationals in the representable range; multiplying through by 1000
gives the equivalent integer comparison `decoded.exp * 1000 > nowMs`, which
is what the embedding uses.
-/

/-- JWT payload shape expected by `AuthContext.tsx` (`interface JwtPayload`):
subject identifier `nameid`, display name `unique_name`, role label `role`,
and numeric expiry `exp` in seconds since epoch. -/
structure JwtPayload where
  nameid : String
  unique_name : String
  role : String
  exp : Int
deriving Repr, DecidableEq

/-- One dot-separated segment of a token string.  A segment is either an
arbitrary string (`raw`) or a base64-encoded JSON object of the
`JwtPayload` shape (`jsonPayload`), the form `createAdminToken` mints and
the form the `jwt-decode` library expects in position 1. -/
inductive TokenPart where
  | raw (s : String)
  | jsonPayload (p : JwtPayload)
deriving Repr, DecidableEq

/-- A token: the list of its dot-separated segments. -/
structure Token where
  parts : List TokenPart
deriving Repr, DecidableEq

/-- Model of the external `jwt-decode` library (out of scope of the
repository; per the spec the token's middle part is a base64-encoded JSON
object).  `jwtDecode` reads segment 1 of the dot-split token and parses it;
`none` models the `InvalidTokenError` the library throws when the segment
is absent or does not parse. -/
def jwtDecode (t : Token) : Option JwtPayload :=
  match t.parts.get? 1 with
  | some (TokenPart.jsonPayload p) => some p
  | _ => none

/-- `interface User` of `AuthContext.tsx`: the derived Identity. -/
structure User where
  id : String
  username : String
  role : String
deriving Repr, DecidableEq

/-- The Session Store's in-memory state: the `isAuthenticated` and `user`
`useState` cells of `AuthProvider`. -/
structure SessionState where
  isAuthenticated : Bool
  user : Option User
deriving Repr, DecidableEq

/-- The single durable storage slot `localStorage['token']`; `none` means
the key is absent. -/
structure Storage where
  token : Option Token
deriving Repr, DecidableEq

/-- The Identity derived from a decoded payload, exactly as built in
`AuthContext.tsx`: `{ id: decoded.nameid, username: decoded.unique_name,
role: decoded.role }`. -/
def decodedUser (d : JwtPayload) : User :=
  { id := d.nameid, username := d.unique_name, role := d.role }

/-- The `useState` defaults of `AuthProvider`: `isAuthenticated = false`,
`user = null`. -/
def initialState : SessionState :=
  { isAuthenticated := false, user := none }

/-- The initialize effect of `AuthProvider` (the `useEffect` run on mount):
read the persisted token; if present, decode it and compare
`decoded.exp > Date.now() / 1000` (here `nowMs < d.exp * 1000`); set the
authenticated state on success, remove the token from storage on expiry or
on decode failure (the `catch` branch).  Returns the resulting session
state and storage.  The function is total: decode failure is caught and
never surfaces. -/
def initSession (s : Storage) (nowMs : Int) : SessionState × Storage :=
  match s.token with
  | none => (initialState, s)
  | some t =>
    match jwtDecode t with
    | some d =>
      if nowMs < d.exp * 1000 then
        ({ isAuthenticated := true, user := some (decodedUser d) }, s)
      else
        (initialState, { token := none })
    | none => (initialState, { token := none })

/-- `login` of `AuthContext.tsx`: persist the token to storage
unconditionally (`localStorage.setItem` comes first), then decode it and
update the state.  The returned pair is the storage after the call and the
new session state; `none` in the second component models the uncaught
`jwt-decode` exception propagating to the caller, the state cells left
untouched — note the first component holds the token even then. -/
def login (t : Token) (_s : Storage) : Storage × Option SessionState :=
  let s1 : Storage := { token := some t }
  match jwtDecode t with
  | some d =>
    (s1, some { isAuthenticated := true, user := some (decodedUser d) })
  | none => (s1, none)

/-- An observable effect of a Session Store operation, in program order. -/
inductive AuthEffect where
  | setToken (t : Token)
  | removeToken
  | setState (st : SessionState)
  | decodeFailure
deriving Repr, DecidableEq

/-- The sequence of effects `login` performs, in the order the source
performs them: `localStorage.setItem('token', token)` first, then either
the state update or the uncaught decode exception. -/
def loginEffects (t : Token) : List AuthEffect :=
  match jwtDecode t with
  | some d =>
    [AuthEffect.setToken t,
     AuthEffect.setState { isAuthenticated := true, user := some (decodedUser d) }]
  | none => [AuthEffect.setToken t, AuthEffect.decodeFailure]

/-- `logout` of `AuthContext.tsx`: remove the persisted token, reset
`isAuthenticated` to false and `user` to null.  It reads nothing from the
prior state. -/
def logout (_p : SessionState × Storage) : SessionState × Storage :=
  ({ isAuthenticated := false, user := none }, { token := none })

/-- Lowercase hex digit, as produced by JS string escapes. -/
def hexDigit (n : Nat) : Char :=
  "0123456789abcdef".toList.getD n '0'

/-- Escape of one character inside a JSON string literal, following
`JSON.stringify`: quote, backslash, the named control escapes, and
`\u00xx` for the remaining control characters. -/
def jsonEscapeChar (c : Char) : String :=
  if c = '"' then "\\\""
  else if c = '\\' then "\\\\"
  else if c = '\n' then "\\n"
  else if c = '\r' then "\\r"
  else if c = '\t' then "\\t"
  else if c.toNat = 8 then "\\b"
  else if c.toNat = 12 then "\\f"
  else if c.toNat < 32 then
    "\\u00" ++ String.singleton (hexDigit (c.toNat / 16))
      ++ String.singleton (hexDigit (c.toNat % 16))
  else String.singleton c

/-- Escape of a whole JSON string body. -/
def jsonEscape (s : String) : String :=
  String.join (s.toList.map jsonEscapeChar)

/-- `JSON.stringify` of the admin payload object, with the property order of
the object literal in `createAdminToken` (`nameid`, `unique_name`, `role`,
`exp`). -/
def stringifyPayload (p : JwtPayload) : String :=
  "\x7b\"nameid\":\"" ++ jsonEscape p.nameid
    ++ "\",\"unique_name\":\"" ++ jsonEscape p.unique_name
    ++ "\",\"role\":\"" ++ jsonEscape p.role
    ++ "\",\"exp\":" ++ toString p.exp ++ "\x7d"

/-- The base64 alphabet used by `btoa`. -/
def b64Table : List Char :=
  "ABCDEFGHIJKLMNOPQRSTUVWXYZabcdefghijklmnopqrstuvwxyz0123456789+/".toList

/-- Character of the base64 alphabet at index `n < 64`. -/
def b64Char (n : Nat) : Char :=
  b64Table.getD n 'A'

/-- Standard base64 encoding of a byte sequence, with `=` padding. -/
def b64Encode : List Nat → List Char
  | [] => []
  | [a] =>
    [b64Char (a / 4), b64Char (a % 4 * 16), '=', '=']
  | [a, b] =>
    [b64Char (a / 4), b64Char (a % 4 * 16 + b / 16), b64Char (b % 16 * 4), '=']
  | a :: b :: c :: rest =>
    b64Char (a / 4) :: b64Char (a % 4 * 16 + b / 16)
      :: b64Char (b % 16 * 4 + c / 64) :: b64Char (c % 64) :: b64Encode rest

/-- The browser's `btoa` on a Latin-1 string: base64 of its character
codes. -/
def btoa (s : String) : String :=
  String.mk (b64Encode (s.toList.map Char.toNat))

/-- String form of one token segment: a raw segment is itself; a payload
segment is `btoa(JSON.stringify(payload))` as in `createAdminToken`. -/
def partString : TokenPart → String
  | TokenPart.raw s => s
  | TokenPart.jsonPayload p => btoa (stringifyPayload p)

/-- The serialized token string: its segments joined with dots — the form
persisted in `localStorage` and sent in the `Authorization` header. -/
def tokenString (t : Token) : String :=
  String.intercalate "." (t.parts.map partString)

/-- `createAdminToken` of `Login.tsx`: a three-segment mock token
`header.btoa(JSON.stringify(payload)).mockSignature` whose payload is
`nameid: 'admin'`, `unique_name: 'admin'`, `role: 'Administrator'`,
`exp: Math.floor(Date.now() / 1000) + 24 * 60 * 60`.  Integer division on
`Int` rounds toward negative infinity, so `nowMs / 1000` is `Math.floor` of
the real quotient. -/
def createAdminToken (nowMs : Int) : Token :=
  { parts :=
      [TokenPart.raw "eyJhbGciOiJIUzI1NiIsInR5cCI6IkpXVCJ9",
       TokenPart.jsonPayload
         { nameid := "admin", unique_name := "admin", role := "Administrator",
           exp := nowMs / 1000 + 24 * 60 * 60 },
       TokenPart.raw "mockSignature"] }

/-- The action `handleSubmit` of `Login.tsx` takes after its local checks:
reject empty fields, take the local admin bypass (mint a token and call
`login`, no request sent), or post the credentials to the login endpoint. -/
inductive LoginAction where
  | validationError (msg : String)
  | adminBypass (t : Token)
  | apiLogin (username password : String)
deriving Repr, DecidableEq

/-- `handleSubmit` of `Login.tsx`, up to the choice of action: empty
username or password is rejected first; then `username === 'admin' &&
password === 'admin'` short-circuits to the locally minted admin token;
every other pair is posted to the remote login endpoint. -/
def handleSubmit (nowMs : Int) (username password : String) : LoginAction :=
  if username = "" ∨ password = "" then
    LoginAction.validationError "Please enter both username and password"
  else if username = "admin" ∧ password = "admin" then
    LoginAction.adminBypass (createAdminToken nowMs)
  else
    LoginAction.apiLogin username password

/-- Outcome of the Route Guard: render the requested view, or navigate
away to a target route. -/
inductive RouteOutcome where
  | grant (view : String)
  | redirect (target : String)
deriving Repr, DecidableEq

/-- `PrivateRoute`: if `isAuthenticated` is false, `<Navigate to="/login"
replace />` (no record of the requested view is passed along); otherwise
render the children / outlet of the requested view. -/
def privateRoute (isAuthenticated : Bool) (requested : String) : RouteOutcome :=
  if isAuthenticated then RouteOutcome.grant requested
  else RouteOutcome.redirect "/login"

/-- A response as seen by the `axios.ts` interceptors: its status and the
endpoint that produced it (the interceptor never reads the latter). -/
structure HttpResponse where
  status : Int
  endpointUrl : String
deriving Repr, DecidableEq

/-- An axios error object: `response` is `none` for a network-level
failure where no response was received. -/
structure HttpError where
  response : Option HttpResponse
deriving Repr, DecidableEq

/-- The fulfilled branch of the `axios.ts` response interceptor: the
response is returned unchanged and storage is untouched. -/
def responseOnFulfilled (r : HttpResponse) (s : Storage) : HttpResponse × Storage :=
  (r, s)

/-- The rejected branch of the `axios.ts` response interceptor: when
`error.response` exists and `error.response.status === 401`, remove the
token from storage and set `window.location.href = '/login'` (third
component); in every case the error is re-rejected to the caller (first
component).  Any other status, 403 included, and any network-level
failure leave storage untouched and trigger no navigation. -/
def responseOnRejected (e : HttpError) (s : Storage) :
    HttpError × Storage × Option String :=
  match e.response with
  | some r =>
    if r.status = 401 then (e, { token := none }, some "/login")
    else (e, s, none)
  | none => (e, s, none)

/-- An outgoing request configuration, with the fields the `axios.ts`
request interceptor could touch kept separate. -/
structure RequestConfig where
  url : String
  method : String
  data : Option String
  contentType : String
  authorization : Option String
deriving Repr, DecidableEq

/-- The `axios.ts` request interceptor: read the raw token from
`localStorage` (not from the Session Store's state) and, if present, set
`config.headers.Authorization` to `Bearer <token>`; otherwise return the
config as is.  No other field is written. -/
def requestOnFulfilled (s : Storage) (c : RequestConfig) : RequestConfig :=
  match s.token with
  | some t => { c with authorization := some ("Bearer " ++ tokenString t) }
  | none => c

/-- C1, as stated, is false on the `axios.ts` interceptor: a 403 response
with a token in storage is re-rejected with the storage entry left in
place and no navigation — the interceptor tests `status === 401` only. -/
theorem c1_counterexample_403_passes_through :
    responseOnRejected
        { response := some { status := 403, endpointUrl := "/api/patients" } }
        { token := some { parts := [TokenPart.raw "tk"] } }
      = ({ response := some { status := 403, endpointUrl := "/api/patients" } },
         { token := some { parts := [TokenPart.raw "tk"] } }, none)
    ∧ (some { parts := [TokenPart.raw "tk"] } : Option Token) ≠ none :=
  ⟨rfl, by simp⟩

/-- C1 (amended): on the `axios.ts` wrapper, only status 401 triggers the
forced logout — for every wrapped request whose response carries 401,
regardless of endpoint, the interceptor removes the persisted token and
forces navigation to the login view; every other response or error
(403 included, and network-level failures with no response) passes through
to the caller with the storage entry left unmodified. -/
theorem c1_response_interceptor_clears_only_on_401 (e : HttpError) (s : Storage) :
    (∀ r, e.response = some r → r.status = 401 →
      responseOnRejected e s = (e, { token := none }, some "/login"))
    ∧ (∀ r, e.response = some r → r.status ≠ 401 →
      responseOnRejected e s = (e, s, none))
    ∧ (e.response = none → responseOnRejected e s = (e, s, none))
    ∧ (∀ r, responseOnFulfilled r s = (r, s)) := by
  refine ⟨?_, ?_, ?_, fun r => rfl⟩
  · intro r hr h401
    simp [responseOnRejected, hr, h401]
  · intro r hr hne
    simp [responseOnRejected, hr, hne]
  · intro hr
    simp [responseOnRejected, hr]

/-- Witness for C1's amended theorem at a concrete 401 response. -/
theorem c1_interceptor_witness :
    responseOnRejected
        { response := some { status := 401, endpointUrl := "/api/doctors" } }
        { token := some { parts := [TokenPart.raw "tk"] } }
      = ({ response := some { status := 401, endpointUrl := "/api/doctors" } },
         { token := none }, some "/login") :=
  (c1_response_interceptor_clears_only_on_401 _ _).1 _ rfl rfl

/-- C2: submitting the login form with `admin`/`admin` takes the local
bypass — no request is posted — and mints a three-part token whose payload
carries subject `admin`, display name `admin`, role `Administrator`, and
an expiry 24 hours ahead (strictly in the future of `nowMs`); `login` on
that token yields the authenticated state with Identity
`⟨admin, admin, Administrator⟩`. -/
theorem c2_admin_bypass_mints_local_token (nowMs : Int) :
    handleSubmit nowMs "admin" "admin" = LoginAction.adminBypass (createAdminToken nowMs)
    ∧ (∀ u p, handleSubmit nowMs "admin" "admin" ≠ LoginAction.apiLogin u p)
    ∧ (createAdminToken nowMs).parts.length = 3
    ∧ jwtDecode (createAdminToken nowMs)
        = some { nameid := "admin", unique_name := "admin", role := "Administrator",
                 exp := nowMs / 1000 + 24 * 60 * 60 }
    ∧ nowMs < (nowMs / 1000 + 24 * 60 * 60) * 1000
    ∧ (∀ s : Storage, login (createAdminToken nowMs) s
        = ({ token := some (createAdminToken nowMs) },
           some { isAuthenticated := true,
                  user := some { id := "admin", username := "admin",
                                 role := "Administrator" } })) := by
  refine ⟨rfl, ?_, rfl, rfl, by omega, fun s => rfl⟩
  intro u p h
  simp [handleSubmit] at h

/-- Witness for C2 at a concrete clock reading. -/
theorem c2_admin_bypass_witness :
    handleSubmit 1700000000123 "admin" "admin"
      = LoginAction.adminBypass (createAdminToken 1700000000123) :=
  (c2_admin_bypass_mints_local_token 1700000000123).1

/-- C3: the expiry comparison of the initialize effect is strict — a token
whose `exp` equals the current time exactly (current milliseconds
`1000 * T`, so `Date.now() / 1000 = T = exp`) is treated as expired: the
state stays unauthenticated and the token is removed from storage. -/
theorem c3_expiry_at_now_is_expired (T : Int) (t : Token) (d : JwtPayload)
    (hdec : jwtDecode t = some d) (hexp : d.exp = T) :
    initSession { token := some t } (1000 * T) = (initialState, { token := none }) := by
  subst hexp
  have h : ¬ (1000 * d.exp < d.exp * 1000) := by omega
  simp [initSession, hdec, h]

/-- Witness for C3: a token expiring at second 5, checked at millisecond
`1000 * 5`. -/
theorem c3_expiry_witness :
    initSession
        { token := some { parts :=
            [TokenPart.raw "hd",
             TokenPart.jsonPayload
               { nameid := "u1", unique_name := "doc", role := "Doctor", exp := 5 },
             TokenPart.raw "sig"] } }
        (1000 * 5)
      = (initialState, { token := none }) :=
  c3_expiry_at_now_is_expired 5
    { parts :=
        [TokenPart.raw "hd",
         TokenPart.jsonPayload
           { nameid := "u1", unique_name := "doc", role := "Doctor", exp := 5 },
         TokenPart.raw "sig"] }
    { nameid := "u1", unique_name := "doc", role := "Doctor", exp := 5 } rfl rfl

/-- C4: an undecodable persisted token, or one whose expiry lies in the
past, makes the initialize effect yield the unauthenticated state with no
Identity and remove the token from storage; `initSession` is a total
function — the decode failure is caught (`catch` branch) and no error
reaches the caller. -/
theorem c4_invalid_or_expired_silent_recovery (t : Token) (nowMs : Int)
    (h : jwtDecode t = none ∨ ∃ d, jwtDecode t = some d ∧ d.exp * 1000 < nowMs) :
    initSession { token := some t } nowMs = (initialState, { token := none }) := by
  rcases h with h | ⟨d, hd, hlt⟩
  · simp [initSession, h]
  · have hnot : ¬ (nowMs < d.exp * 1000) := by omega
    simp [initSession, hd, hnot]

/-- Witness for C4: a token with no payload segment is undecodable. -/
theorem c4_silent_recovery_witness :
    initSession { token := some { parts := [] } } 0
      = (initialState, { token := none }) :=
  c4_invalid_or_expired_silent_recovery { parts := [] } 0 (Or.inl rfl)

/-- C5: a persisted token that decodes and whose expiry is in the future
makes the initialize effect yield the authenticated state whose Identity
is exactly the payload's `nameid`, `unique_name` and `role`, the storage
left untouched. -/
theorem c5_valid_token_authenticates (t : Token) (d : JwtPayload) (nowMs : Int)
    (hdec : jwtDecode t = some d) (hfut : nowMs < d.exp * 1000) :
    initSession { token := some t } nowMs
      = ({ isAuthenticated := true,
           user := some { id := d.nameid, username := d.unique_name, role := d.role } },
         { token := some t }) := by
  simp [initSession, hdec, hfut, decodedUser]

/-- Witness for C5: a token expiring at second 10 checked at millisecond 0. -/
theorem c5_valid_token_witness :
    initSession
        { token := some { parts :=
            [TokenPart.raw "hd",
             TokenPart.jsonPayload
               { nameid := "u1", unique_name := "doc", role := "Doctor", exp := 10 },
             TokenPart.raw "sig"] } }
        0
      = ({ isAuthenticated := true,
           user := some { id := "u1", username := "doc", role := "Doctor" } },
         { token := some { parts :=
             [TokenPart.raw "hd",
              TokenPart.jsonPayload
                { nameid := "u1", unique_name := "doc", role := "Doctor", exp := 10 },
              TokenPart.raw "sig"] } }) :=
  c5_valid_token_authenticates
    { parts :=
        [TokenPart.raw "hd",
         TokenPart.jsonPayload
           { nameid := "u1", unique_name := "doc", role := "Doctor", exp := 10 },
         TokenPart.raw "sig"] }
    { nameid := "u1", unique_name := "doc", role := "Doctor", exp := 10 } 0 rfl (by decide)

/-- C6: `login` writes the token to storage before any state update — the
first effect in program order is the storage write, and the storage
returned by `login` holds the token in every case; on decode success the
state matches the token just persisted, and on decode failure the
exception propagates (no state update) with the token nonetheless already
persisted. -/
theorem c6_login_persists_before_state (t : Token) (s : Storage) :
    (login t s).1 = { token := some t }
    ∧ (loginEffects t).head? = some (AuthEffect.setToken t)
    ∧ (jwtDecode t = none → (login t s).2 = none
        ∧ loginEffects t = [AuthEffect.setToken t, AuthEffect.decodeFailure])
    ∧ (∀ d, jwtDecode t = some d →
        (login t s).2 = some { isAuthenticated := true, user := some (decodedUser d) }
        ∧ loginEffects t
          = [AuthEffect.setToken t,
             AuthEffect.setState
               { isAuthenticated := true, user := some (decodedUser d) }]) := by
  cases hdec : jwtDecode t <;> simp [login, loginEffects, hdec]

/-- Witness for C6 at a concrete decodable token. -/
theorem c6_login_witness :
    (login
        { parts :=
            [TokenPart.raw "hd",
             TokenPart.jsonPayload
               { nameid := "u1", unique_name := "doc", role := "Doctor", exp := 10 },
             TokenPart.raw "sig"] }
        { token := none }).2
      = some { isAuthenticated := true,
               user := some { id := "u1", username := "doc", role := "Doctor" } } :=
  ((c6_login_persists_before_state
      { parts :=
          [TokenPart.raw "hd",
           TokenPart.jsonPayload
             { nameid := "u1", unique_name := "doc", role := "Doctor", exp := 10 },
           TokenPart.raw "sig"] }
      { token := none }).2.2.2
    { nameid := "u1", unique_name := "doc", role := "Doctor", exp := 10 } rfl).1

/-- C7: `logout` ignores the prior state entirely — from every session
state and storage it yields `isAuthenticated = false`, no Identity, and an
absent storage entry, and applying it twice equals applying it once. -/
theorem c7_logout_idempotent (p : SessionState × Storage) :
    logout p = ({ isAuthenticated := false, user := none }, { token := none })
    ∧ logout (logout p) = logout p := by
  simp [logout]

/-- C8: the Route Guard admits the requested view exactly when the
authenticated flag is true; when false it redirects to `/login` whatever
the requested view was, and no outcome other than these two exists. -/
theorem c8_route_guard_decision (a : Bool) (v : String) :
    (privateRoute a v = RouteOutcome.grant v ↔ a = true)
    ∧ (a = false → privateRoute a v = RouteOutcome.redirect "/login")
    ∧ (privateRoute a v = RouteOutcome.grant v
        ∨ privateRoute a v = RouteOutcome.redirect "/login") := by
  cases a <;> simp [privateRoute]

/-- Witness for C8: unauthenticated access to a concrete protected view. -/
theorem c8_route_guard_witness :
    privateRoute false "/patients" = RouteOutcome.redirect "/login" :=
  (c8_route_guard_decision false "/patients").2.1 rfl

/-- C9: the request interceptor reads the raw token from storage; when a
token is present it sets the authorization header to `Bearer <token>` and
when none is present the config is returned unchanged — in both cases
every field other than the authorization header is left as it was. -/
theorem c9_request_interceptor_frame (s : Storage) (c : RequestConfig) :
    (requestOnFulfilled s c).url = c.url
    ∧ (requestOnFulfilled s c).method = c.method
    ∧ (requestOnFulfilled s c).data = c.data
    ∧ (requestOnFulfilled s c).contentType = c.contentType
    ∧ (∀ t, s.token = some t →
        (requestOnFulfilled s c).authorization = some ("Bearer " ++ tokenString t))
    ∧ (s.token = none → requestOnFulfilled s c = c) := by
  rcases s with ⟨_ | t⟩ <;> simp [requestOnFulfilled]

/-- Witness for C9 at a concrete stored token and request. -/
theorem c9_request_interceptor_witness :
    (requestOnFulfilled { token := some { parts := [TokenPart.raw "abc"] } }
        { url := "/api/patients", method := "get", data := none,
          contentType := "application/json", authorization := none }).authorization
      = some "Bearer abc" :=
  (c9_request_interceptor_frame { token := some { parts := [TokenPart.raw "abc"] } }
      { url := "/api/patients", method := "get", data := none,
        contentType := "application/json", authorization := none }).2.2.2.2.1
    { parts := [TokenPart.raw "abc"] } rfl

/-- C10: `login` performs no expiry check — a decodable token whose expiry
is already past still yields the authenticated state with the derived
Identity, while the initialize effect rejects the very same token at the
same clock reading. -/
theorem c10_login_skips_expiry_check (t : Token) (d : JwtPayload) (s : Storage)
    (nowMs : Int) (hdec : jwtDecode t = some d) (hpast : d.exp * 1000 ≤ nowMs) :
    (login t s).2 = some { isAuthenticated := true, user := some (decodedUser d) }
    ∧ initSession { token := some t } nowMs = (initialState, { token := none }) := by
  have hnot : ¬ (nowMs < d.exp * 1000) := by omega
  exact ⟨by simp [login, hdec], by simp [initSession, hdec, hnot]⟩

/-- Witness for C10: a token expired at second 10, accepted by `login` at
millisecond 20000 where the initialize effect rejects it. -/
theorem c10_login_skips_expiry_witness :
    (login
        { parts :=
            [TokenPart.raw "hd",
             TokenPart.jsonPayload
               { nameid := "u1", unique_name := "doc", role := "Doctor", exp := 10 },
             TokenPart.raw "sig"] }
        { token := none }).2
      = some { isAuthenticated := true,
               user := some { id := "u1", username := "doc", role := "Doctor" } }
    ∧ initSession
        { token := some { parts :=
            [TokenPart.raw "hd",
             TokenPart.jsonPayload
               { nameid := "u1", unique_name := "doc", role := "Doctor", exp := 10 },
             TokenPart.raw "sig"] } }
        20000
      = (initialState, { token := none }) :=
  c10_login_skips_expiry_check
    { parts :=
        [TokenPart.raw "hd",
         TokenPart.jsonPayload
           { nameid := "u1", unique_name := "doc", role := "Doctor", exp := 10 },
         TokenPart.raw "sig"] }
    { nameid := "u1", unique_name := "doc", role := "Doctor", exp := 10 }
    { token := none } 20000 rfl (by decide)
